import Mathlib

/-!
# Interface data source of the OPNsense Terraform provider

A shallow embedding of `internal/service/interface_schema.go`:

* the attribute values of the plugin framework (`types.String`, `types.Int64`,
  `types.Bool`, `types.List`) as three-state values
  (null, unknown, known);
* the record type `diagnostics.InterfaceConfig` of the client library, with the
  fields the conversion reads;
* the helper `tools.StringToInt64Null` of `internal/tools`, modelled from the
  spec; the other helper the conversion calls, `tools.StringSliceToSet`, and
  the set container it builds are parameters of the embedding;
* `InterfaceDataSourceSchema` and `convertInterfaceConfigStructToSchema`.

A Go `map[string]T` is an association list read with `List.lookup`; a Go slice
is a `List`, the nil slice being the empty list; `int64` values are `Int`
(the conversion performs no arithmetic on them).
-/

/-! ## The plugin framework: attribute types and values -/

namespace attr

/-- The attribute types the file names: `types.StringType`, `types.Int64Type`
and `types.BoolType`. -/
inductive AttrType where
  | StringType
  | Int64Type
  | BoolType
  deriving DecidableEq, Repr

end attr

namespace basetypes

/-- An attribute value of the framework is null, unknown, or known with a
payload (the framework keeps a state tag next to the Go value). -/
inductive Value (α : Type) where
  | null : Value α
  | unknown : Value α
  | known (v : α) : Value α
  deriving DecidableEq, Repr

/-- Framework `types.String`. -/
abbrev StringValue := Value String

/-- Framework `types.Int64`. -/
abbrev Int64Value := Value Int

/-- Framework `types.Bool`. -/
abbrev BoolValue := Value Bool

/-- A value of one of the three primitive attribute types, as stored in an
attribute of an object. -/
inductive Primitive where
  | String (v : StringValue)
  | Int64 (v : Int64Value)
  | Bool (v : BoolValue)
  deriving DecidableEq, Repr

/-- The attribute type of a primitive value (the framework's `Type(ctx)`). -/
def Primitive.TypeOf : Primitive → attr.AttrType
  | .String _ => .StringType
  | .Int64 _ => .Int64Type
  | .Bool _ => .BoolType

/-- The attributes of a framework object value, by name. -/
abbrev ObjectValue := List (String × Primitive)

/-- Framework `types.List` whose elements are objects. -/
abbrev ListValue := Value (List ObjectValue)

/-- The framework's `Elements()`: the elements of a known list, and no element
for a null or unknown list. -/
def ListValue.Elements : ListValue → List ObjectValue
  | .known es => es
  | _ => []

end basetypes

namespace types

open basetypes

/-- The framework's `types.StringValue`: a known string. -/
def StringValue (v : String) : basetypes.StringValue := .known v

/-- The framework's `types.Int64Value`: a known integer. -/
def Int64Value (v : Int) : basetypes.Int64Value := .known v

/-- The framework's `types.Int64Null`: the null integer. -/
def Int64Null : basetypes.Int64Value := .null

/-- The framework's `types.BoolValue`: a known boolean. -/
def BoolValue (v : Bool) : basetypes.BoolValue := .known v

/-- What the framework's reflection reads from a Go struct whose fields carry
`tfsdk` tags: the tag and the value of each field, in declaration order. -/
class TfsdkStruct (α : Type) where
  fields : α → List (String × Primitive)

/-- The framework's conversion of one tagged struct into an object of the
attribute types `attrTypes`: it fails when a tag has no attribute type, when an
attribute type has no tag, or when a field's value is not of the declared
type. -/
def FromStruct (attrTypes : List (String × attr.AttrType))
    (fields : List (String × Primitive)) : Except String ObjectValue :=
  let objectMissing := fields.filter (fun f => (attrTypes.lookup f.1).isNone)
  let structMissing := attrTypes.filter (fun a => (fields.lookup a.1).isNone)
  if objectMissing.isEmpty && structMissing.isEmpty then
    if fields.all (fun f => attrTypes.lookup f.1 == some f.2.TypeOf) then
      .ok fields
    else
      .error "Value Conversion Error: type mismatch"
  else
    .error "Value Conversion Error: mismatch between struct and object"

/-- Element-wise conversion of a non-nil slice of tagged structs; the first
failure aborts the conversion. -/
def FromSlice {α : Type} [TfsdkStruct α] (attrTypes : List (String × attr.AttrType)) :
    List α → Except String (List ObjectValue)
  | [] => .ok []
  | x :: xs =>
    match FromStruct attrTypes (TfsdkStruct.fields x) with
    | .error e => .error e
    | .ok o =>
      match FromSlice attrTypes xs with
      | .error e => .error e
      | .ok os => .ok (o :: os)

/-- The framework's `types.ListValueFrom` at element type
`types.ObjectType{}.WithAttributeTypes(attrTypes)`: a nil slice gives the null
list, a slice whose elements all convert gives the known list of the objects,
and a failure gives the unknown list together with the diagnostics. -/
def ListValueFrom {α : Type} [TfsdkStruct α] (attrTypes : List (String × attr.AttrType))
    (elements : List α) : ListValue × Option String :=
  match elements with
  | [] => (.null, none)
  | _ :: _ =>
    match FromSlice attrTypes elements with
    | .ok os => (.known os, none)
    | .error e => (.unknown, some e)

end types

/-! ## The client library: `diagnostics.InterfaceConfig` -/

namespace diagnostics

/-- An element of `InterfaceConfig.Ipv4`. -/
structure InterfaceConfigIpv4 where
  IpAddr : String
  SubnetBits : Int
  Tunnel : Bool
  deriving DecidableEq, Repr

/-- An element of `InterfaceConfig.Ipv6`. -/
structure InterfaceConfigIpv6 where
  IpAddr : String
  SubnetBits : Int
  Tunnel : Bool
  Autoconf : Bool
  Deprecated : Bool
  LinkLocal : Bool
  Tentative : Bool
  deriving DecidableEq, Repr

/-- The fields of `diagnostics.InterfaceConfig` that the conversion reads. -/
structure InterfaceConfig where
  Device : String
  Media : String
  MediaRaw : String
  MacAddr : String
  IsPhysical : Bool
  Mtu : String
  Status : String
  Flags : List String
  Capabilities : List String
  Options : List String
  SupportedMedia : List String
  Groups : List String
  Ipv4 : List InterfaceConfigIpv4
  Ipv6 : List InterfaceConfigIpv6
  deriving DecidableEq, Repr

end diagnostics

/-! ## Go built-ins -/

/-- A Go `error` made by `errors.New`: it carries its message. -/
structure GoError where
  Error : String
  deriving DecidableEq, Repr

/-- Go `map[string]T`, read with `List.lookup`. -/
abbrev GoMap (α : Type) := List (String × α)

/-- The keys of a map. -/
def GoMap.keys {α : Type} (m : GoMap α) : List String := m.map Prod.fst

/-! ## `internal/tools` -/

namespace tools

/-- The value of a decimal digit. -/
def digitValue (c : Char) : Option Nat :=
  if c.isDigit then some (c.toNat - '0'.toNat) else none

/-- Reads a run of decimal digits, most significant first. -/
def parseDigits : List Char → Nat → Option Nat
  | [], acc => some acc
  | c :: cs, acc =>
    match digitValue c with
    | some d => parseDigits cs (acc * 10 + d)
    | none => none

/-- Reads one decimal digit or more. -/
def parseUint (cs : List Char) : Option Nat :=
  if cs.isEmpty then none else parseDigits cs 0

/-- Reads a base-10 `int64` in the manner of Go's `strconv.ParseInt(s, 10, 64)`:
an optional sign, then one digit or more; fails on anything else and on a value
outside the `int64` range. -/
def parseInt64 (s : String) : Option Int :=
  let signed : Option Int :=
    match s.data with
    | '-' :: cs => (parseUint cs).map (fun (n : Nat) => - Int.ofNat n)
    | '+' :: cs => (parseUint cs).map Int.ofNat
    | cs => (parseUint cs).map Int.ofNat
  signed.bind (fun i =>
    if -9223372036854775808 ≤ i ∧ i ≤ 9223372036854775807 then some i else none)

/-- Modelled from the spec: `tools.StringToInt64Null` of `internal/tools`, which
is not among the sources. The spec's words: the MTU is coerced
"string→optional-int"; "an input record with MTU absent/empty yields an output
MTU marked absent, not zero"; "Numeric MTU becomes either a present integer or
an explicit absent marker (never a sentinel zero)"; and `Mtu:"1500"` gives
`Mtu=1500`. The empty string gives the null integer, a decimal integer string
the known integer it denotes; a string that denotes no integer has no integer
to present and gives the null integer as well. -/
def StringToInt64Null (s : String) : basetypes.Int64Value :=
  if s = "" then types.Int64Null
  else
    match parseInt64 s with
    | some i => types.Int64Value i
    | none => types.Int64Null

end tools

/-! ## The schema package of the framework -/

namespace schema

/-- The attribute declarations the file uses; a field the source leaves out has
Go's zero value (`false`, the empty string). -/
inductive Attribute where
  | StringAttribute (MarkdownDescription : String) (Required Computed : Bool)
  | BoolAttribute (MarkdownDescription : String) (Required Computed : Bool)
  | Int64Attribute (MarkdownDescription : String) (Required Computed : Bool)
  | SetAttribute (MarkdownDescription : String) (Required Computed : Bool)
      (ElementType : attr.AttrType)
  | ListNestedAttribute (MarkdownDescription : String) (Required Computed : Bool)
      (NestedObject : List (String × Attribute))

/-- The framework's `IsRequired()`. -/
def Attribute.IsRequired : Attribute → Bool
  | .StringAttribute _ r _ => r
  | .BoolAttribute _ r _ => r
  | .Int64Attribute _ r _ => r
  | .SetAttribute _ r _ _ => r
  | .ListNestedAttribute _ r _ _ => r

/-- The framework's `IsComputed()`. -/
def Attribute.IsComputed : Attribute → Bool
  | .StringAttribute _ _ c => c
  | .BoolAttribute _ _ c => c
  | .Int64Attribute _ _ c => c
  | .SetAttribute _ _ c _ => c
  | .ListNestedAttribute _ _ c _ => c

/-- The primitive attribute type a string, int64 or bool attribute declares
(the framework's `GetType()`); a set or nested list attribute declares none. -/
def Attribute.primitiveType : Attribute → Option attr.AttrType
  | .StringAttribute _ _ _ => some .StringType
  | .Int64Attribute _ _ _ => some .Int64Type
  | .BoolAttribute _ _ _ => some .BoolType
  | _ => none

/-- The attributes of the nested object of a `ListNestedAttribute`. -/
def Attribute.nestedAttributes : Attribute → List (String × Attribute)
  | .ListNestedAttribute _ _ _ attrs => attrs
  | _ => []

/-- A data source `schema.Schema`. -/
structure Schema where
  MarkdownDescription : String
  Attributes : List (String × Attribute)

/-- The attributes of the nested object of the list attribute declared under
`name`; none when the schema declares no such attribute. -/
def Schema.nestedObject (s : Schema) (name : String) : List (String × Attribute) :=
  match s.Attributes.lookup name with
  | some a => a.nestedAttributes
  | none => []

end schema

/-! ## `internal/service/interface_schema.go` -/

namespace service

open basetypes

/-- Go struct `Ipv4Model`. -/
structure Ipv4Model where
  Ipaddr : StringValue
  SubnetBits : Int64Value
  Tunnel : BoolValue
  deriving DecidableEq, Repr

/-- Go struct `Ipv6Model`. -/
structure Ipv6Model where
  Ipaddr : StringValue
  SubnetBits : Int64Value
  Tunnel : BoolValue
  Autoconf : BoolValue
  Deprecated : BoolValue
  LinkLocal : BoolValue
  Tentative : BoolValue
  deriving DecidableEq, Repr

/-- Go struct `InterfaceDataSourceModel`. The five `types.Set` fields are built
by `tools.StringSliceToSet` only; neither that helper nor the set container is
among the sources, and `S` stands for the container. -/
structure InterfaceDataSourceModel (S : Type) where
  Device : StringValue
  Media : StringValue
  MediaRaw : StringValue
  MacAddr : StringValue
  IsPhysical : BoolValue
  Mtu : Int64Value
  Status : StringValue
  Flags : S
  Capabilities : S
  Options : S
  SupportedMedia : S
  Groups : S
  Ipv4 : ListValue
  Ipv6 : ListValue
  deriving DecidableEq

/-- The `tfsdk` tags of `Ipv4Model`, each with the value of its field. -/
instance : types.TfsdkStruct Ipv4Model where
  fields m :=
    [ ("ipaddr", .String m.Ipaddr),
      ("subnetbits", .Int64 m.SubnetBits),
      ("tunnel", .Bool m.Tunnel) ]

/-- The `tfsdk` tags of `Ipv6Model`, each with the value of its field. -/
instance : types.TfsdkStruct Ipv6Model where
  fields m :=
    [ ("ipaddr", .String m.Ipaddr),
      ("subnetbits", .Int64 m.SubnetBits),
      ("tunnel", .Bool m.Tunnel),
      ("autoconf", .Bool m.Autoconf),
      ("deprecated", .Bool m.Deprecated),
      ("link_local", .Bool m.LinkLocal),
      ("tentative", .Bool m.Tentative) ]

/-- Go variable `ipv4AttrTypes`. -/
def ipv4AttrTypes : GoMap attr.AttrType :=
  [ ("ipaddr", .StringType),
    ("subnetbits", .Int64Type),
    ("tunnel", .BoolType) ]

/-- Go variable `ipv6AttrTypes`. -/
def ipv6AttrTypes : GoMap attr.AttrType :=
  [ ("ipaddr", .StringType),
    ("subnetbits", .Int64Type),
    ("tunnel", .BoolType),
    ("autoconf", .BoolType),
    ("deprecated", .BoolType),
    ("link_local", .BoolType),
    ("tentative", .BoolType) ]

/-- Go function `InterfaceDataSourceSchema`. -/
def InterfaceDataSourceSchema : schema.Schema :=
  { MarkdownDescription := "Interfaces describe network interfaces."
    Attributes :=
      [ ("device", .StringAttribute "Device name." true false),
        ("media", .StringAttribute "Media type." false true),
        ("media_raw", .StringAttribute "" false true),
        ("macaddr", .StringAttribute "" false true),
        ("is_physical", .BoolAttribute "" false true),
        ("mtu", .Int64Attribute "" false true),
        ("status", .StringAttribute "" false true),
        ("flags", .SetAttribute "" false true .StringType),
        ("capabilities", .SetAttribute "" false true .StringType),
        ("options", .SetAttribute "" false true .StringType),
        ("supported_media", .SetAttribute "" false true .StringType),
        ("groups", .SetAttribute "" false true .StringType),
        ("ipv4", .ListNestedAttribute "" false true
          [ ("ipaddr", .StringAttribute "" false true),
            ("subnetbits", .Int64Attribute "" false true),
            ("tunnel", .BoolAttribute "" false true) ]),
        ("ipv6", .ListNestedAttribute "" false true
          [ ("ipaddr", .StringAttribute "" false true),
            ("subnetbits", .Int64Attribute "" false true),
            ("tunnel", .BoolAttribute "" false true),
            ("autoconf", .BoolAttribute "" false true),
            ("deprecated", .BoolAttribute "" false true),
            ("link_local", .BoolAttribute "" false true),
            ("tentative", .BoolAttribute "" false true) ]) ] }

/-- The first loop of `convertInterfaceConfigStructToSchema`: starting from the
nil slice, one `Ipv4Model` is appended for each element of `d.Ipv4`. -/
def ipv4s (d : diagnostics.InterfaceConfig) : List Ipv4Model :=
  d.Ipv4.foldl
    (fun acc e =>
      acc ++ [{ Ipaddr := types.StringValue e.IpAddr
                SubnetBits := types.Int64Value e.SubnetBits
                Tunnel := types.BoolValue e.Tunnel }])
    []

/-- The second loop of `convertInterfaceConfigStructToSchema`: starting from the
nil slice, one `Ipv6Model` is appended for each element of `d.Ipv6`. -/
def ipv6s (d : diagnostics.InterfaceConfig) : List Ipv6Model :=
  d.Ipv6.foldl
    (fun acc e =>
      acc ++ [{ Ipaddr := types.StringValue e.IpAddr
                SubnetBits := types.Int64Value e.SubnetBits
                Tunnel := types.BoolValue e.Tunnel
                Autoconf := types.BoolValue e.Autoconf
                Deprecated := types.BoolValue e.Deprecated
                LinkLocal := types.BoolValue e.LinkLocal
                Tentative := types.BoolValue e.Tentative }])
    []

/-- Go function `convertInterfaceConfigStructToSchema`; the result is the pair
(model pointer, error) with `none` for `nil`. The diagnostics of the two list
conversions are dropped, as in the source. `StringSliceToSet` is the helper
`tools.StringSliceToSet` of `internal/tools`, which is not among the sources. -/
def convertInterfaceConfigStructToSchema {S : Type} (StringSliceToSet : List String → S)
    (data : GoMap diagnostics.InterfaceConfig) (device : String) :
    Option (InterfaceDataSourceModel S) × Option GoError :=
  match data.lookup device with
  | none => (none, some (GoError.mk ("Err: cannot find interface " ++ device)))
  | some d =>
    let model : InterfaceDataSourceModel S :=
      { Device := types.StringValue d.Device
        Media := types.StringValue d.Media
        MediaRaw := types.StringValue d.MediaRaw
        MacAddr := types.StringValue d.MacAddr
        IsPhysical := types.BoolValue d.IsPhysical
        Mtu := tools.StringToInt64Null d.Mtu
        Status := types.StringValue d.Status
        Flags := StringSliceToSet d.Flags
        Capabilities := StringSliceToSet d.Capabilities
        Options := StringSliceToSet d.Options
        SupportedMedia := StringSliceToSet d.SupportedMedia
        Groups := StringSliceToSet d.Groups
        Ipv4 := .null
        Ipv6 := .null }
    let model := { model with Ipv4 := (types.ListValueFrom ipv4AttrTypes (ipv4s d)).1 }
    let model := { model with Ipv6 := (types.ListValueFrom ipv6AttrTypes (ipv6s d)).1 }
    (some model, none)

end service

/-! ## Example inputs -/

namespace service

/-- The record of the spec's end-to-end example. -/
def exampleEm0 : diagnostics.InterfaceConfig :=
  { Device := "em0", Media := "", MediaRaw := "", MacAddr := "00:11:22:33:44:55"
    IsPhysical := false, Mtu := "1500", Status := ""
    Flags := [], Capabilities := [], Options := [], SupportedMedia := [], Groups := []
    Ipv4 := [{ IpAddr := "10.0.0.1", SubnetBits := 24, Tunnel := false }]
    Ipv6 := [] }

/-- The records map of the spec's end-to-end example. -/
def exampleRecords : GoMap diagnostics.InterfaceConfig := [("em0", exampleEm0)]

/-- A record with two addresses of each family, a repeated flag and no MTU. -/
def exampleLagg0 : diagnostics.InterfaceConfig :=
  { Device := "lagg0", Media := "Ethernet autoselect", MediaRaw := "autoselect"
    MacAddr := "00:11:22:33:44:66", IsPhysical := true, Mtu := "", Status := "active"
    Flags := ["up", "broadcast", "up"], Capabilities := ["vlan_mtu"], Options := []
    SupportedMedia := ["autoselect", "autoselect"], Groups := ["lagg"]
    Ipv4 := [{ IpAddr := "192.0.2.1", SubnetBits := 24, Tunnel := false },
             { IpAddr := "10.8.0.1", SubnetBits := 32, Tunnel := true }]
    Ipv6 := [{ IpAddr := "fe80::1", SubnetBits := 64, Tunnel := false, Autoconf := false
               Deprecated := false, LinkLocal := true, Tentative := false },
             { IpAddr := "2001:db8::1", SubnetBits := 48, Tunnel := false, Autoconf := true
               Deprecated := false, LinkLocal := false, Tentative := true }] }

/-- A stand-in for `tools.StringSliceToSet` in the examples: the strings of the
slice, as given. -/
def exampleSliceToSet : List String → List String := fun s => s

/-- A records map whose second key differs from the device name its record
carries. -/
def exampleAliased : GoMap diagnostics.InterfaceConfig :=
  [("em0", exampleEm0), ("lan", exampleLagg0)]

end service

/-! ## Shared lemmas -/

namespace GoMap

theorem lookup_eq_none_iff_not_key {α : Type} (m : GoMap α) (k : String) :
    List.lookup k m = none ↔ k ∉ m.keys := by
  simp only [GoMap.keys, List.lookup_eq_none_iff, List.mem_map, not_exists, not_and]
  constructor
  · intro h p hp hk
    have := h p hp
    simp [hk] at this
  · intro h p hp
    have := h p hp
    simp only [bne_iff_ne, ne_eq]
    exact fun hk => this hk.symm

theorem lookup_isSome_of_key {α : Type} (m : GoMap α) (k : String) (h : k ∈ m.keys) :
    ∃ v, List.lookup k m = some v := by
  cases hl : List.lookup k m with
  | none => exact absurd h ((lookup_eq_none_iff_not_key m k).1 hl)
  | some v => exact ⟨v, rfl⟩

theorem key_of_lookup_eq_some {α : Type} (m : GoMap α) (k : String) (v : α)
    (h : List.lookup k m = some v) : k ∈ m.keys := by
  by_contra hk
  rw [(lookup_eq_none_iff_not_key m k).2 hk] at h
  cases h

end GoMap

namespace service

theorem convert_of_lookup_none {S : Type} (toSet : List String → S)
    (records : GoMap diagnostics.InterfaceConfig) (device : String)
    (h : List.lookup device records = none) :
    convertInterfaceConfigStructToSchema toSet records device
      = (none, some (GoError.mk ("Err: cannot find interface " ++ device))) := by
  simp [convertInterfaceConfigStructToSchema, h]

theorem convert_of_lookup_some {S : Type} (toSet : List String → S)
    (records : GoMap diagnostics.InterfaceConfig) (device : String)
    (d : diagnostics.InterfaceConfig) (h : List.lookup device records = some d) :
    convertInterfaceConfigStructToSchema toSet records device
      = (some
          { Device := types.StringValue d.Device
            Media := types.StringValue d.Media
            MediaRaw := types.StringValue d.MediaRaw
            MacAddr := types.StringValue d.MacAddr
            IsPhysical := types.BoolValue d.IsPhysical
            Mtu := tools.StringToInt64Null d.Mtu
            Status := types.StringValue d.Status
            Flags := toSet d.Flags
            Capabilities := toSet d.Capabilities
            Options := toSet d.Options
            SupportedMedia := toSet d.SupportedMedia
            Groups := toSet d.Groups
            Ipv4 := (types.ListValueFrom ipv4AttrTypes (ipv4s d)).1
            Ipv6 := (types.ListValueFrom ipv6AttrTypes (ipv6s d)).1 }, none) := by
  simp [convertInterfaceConfigStructToSchema, h]

end service

/-! ## The claims -/

namespace service

/-- C1: the conversion returns an error exactly when the device is not a key of
the records map; with an error it returns no model, and for a key it returns a
model and no error. -/
theorem convert_error_iff_not_key {S : Type} (toSet : List String → S)
    (records : GoMap diagnostics.InterfaceConfig) (device : String) :
    ((convertInterfaceConfigStructToSchema toSet records device).2 ≠ none ↔ device ∉ records.keys)
    ∧ ((convertInterfaceConfigStructToSchema toSet records device).2 ≠ none →
        (convertInterfaceConfigStructToSchema toSet records device).1 = none)
    ∧ (device ∈ records.keys →
        (convertInterfaceConfigStructToSchema toSet records device).1 ≠ none
        ∧ (convertInterfaceConfigStructToSchema toSet records device).2 = none) := by
  cases h : List.lookup device records with
  | none =>
    have hk := (GoMap.lookup_eq_none_iff_not_key records device).1 h
    rw [convert_of_lookup_none toSet records device h]
    simp [hk]
  | some d =>
    have hk := GoMap.key_of_lookup_eq_some records device d h
    rw [convert_of_lookup_some toSet records device d h]
    simp [hk]

/-- C2: for a device that is not a key of the records map, the message of the
returned error contains the requested device string as a contiguous
substring. -/
theorem convert_error_contains_device {S : Type} (toSet : List String → S)
    (records : GoMap diagnostics.InterfaceConfig) (device : String) (h : device ∉ records.keys) :
    ∃ e : GoError, (convertInterfaceConfigStructToSchema toSet records device).2 = some e
      ∧ ∃ pre post : String, e.Error = pre ++ device ++ post := by
  rw [convert_of_lookup_none toSet records device ((GoMap.lookup_eq_none_iff_not_key records device).2 h)]
  exact ⟨_, rfl, "Err: cannot find interface ", "", by simp⟩

theorem convert_error_contains_device_witness :
    "em1" ∉ GoMap.keys exampleRecords
    ∧ ∃ e : GoError, (convertInterfaceConfigStructToSchema exampleSliceToSet exampleRecords "em1").2 = some e
      ∧ ∃ pre post : String, e.Error = pre ++ "em1" ++ post :=
  ⟨by decide, convert_error_contains_device exampleSliceToSet exampleRecords "em1" (by decide)⟩

/-- C3, as stated, fails: with no record for "em1" the message of the returned
error is "Err: cannot find interface em1", which is not
"cannot find interface em1". -/
theorem convert_error_message_not_bare :
    "em1" ∉ GoMap.keys exampleRecords
    ∧ (convertInterfaceConfigStructToSchema exampleSliceToSet exampleRecords "em1").2
        = some (GoError.mk "Err: cannot find interface em1")
    ∧ (convertInterfaceConfigStructToSchema exampleSliceToSet exampleRecords "em1").2
        ≠ some (GoError.mk ("cannot find interface " ++ "em1")) := by
  refine ⟨by decide, by decide, by decide⟩

/-- C3, amended: for a device that is not a key of the records map, the message
of the returned error is exactly "Err: cannot find interface " followed by the
device. -/
theorem convert_error_message {S : Type} (toSet : List String → S)
    (records : GoMap diagnostics.InterfaceConfig) (device : String) (h : device ∉ records.keys) :
    ∃ e : GoError, (convertInterfaceConfigStructToSchema toSet records device).2 = some e
      ∧ e.Error = "Err: cannot find interface " ++ device := by
  rw [convert_of_lookup_none toSet records device ((GoMap.lookup_eq_none_iff_not_key records device).2 h)]
  exact ⟨_, rfl, rfl⟩

theorem convert_error_message_witness :
    "em1" ∉ GoMap.keys exampleRecords
    ∧ ∃ e : GoError, (convertInterfaceConfigStructToSchema exampleSliceToSet exampleRecords "em1").2 = some e
      ∧ e.Error = "Err: cannot find interface " ++ "em1" :=
  ⟨by decide, convert_error_message exampleSliceToSet exampleRecords "em1" (by decide)⟩

end service

/-! ## The address loops and the list conversion -/

namespace service

theorem foldl_append_singleton {α β : Type} (f : α → β) (l : List α) (acc : List β) :
    l.foldl (fun a e => a ++ [f e]) acc = acc ++ l.map f := by
  induction l generalizing acc with
  | nil => simp
  | cons x xs ih => simp [List.foldl_cons, ih]

theorem ipv4s_eq_map (d : diagnostics.InterfaceConfig) :
    ipv4s d = d.Ipv4.map (fun e =>
      { Ipaddr := .known e.IpAddr, SubnetBits := .known e.SubnetBits,
        Tunnel := .known e.Tunnel }) := by
  unfold ipv4s
  rw [foldl_append_singleton]
  rfl

theorem ipv6s_eq_map (d : diagnostics.InterfaceConfig) :
    ipv6s d = d.Ipv6.map (fun e =>
      { Ipaddr := .known e.IpAddr, SubnetBits := .known e.SubnetBits,
        Tunnel := .known e.Tunnel, Autoconf := .known e.Autoconf,
        Deprecated := .known e.Deprecated, LinkLocal := .known e.LinkLocal,
        Tentative := .known e.Tentative }) := by
  unfold ipv6s
  rw [foldl_append_singleton]
  rfl

theorem fromStruct_ipv4 (x : Ipv4Model) :
    types.FromStruct ipv4AttrTypes (types.TfsdkStruct.fields x)
      = .ok (types.TfsdkStruct.fields x) := by
  rfl

theorem fromStruct_ipv6 (x : Ipv6Model) :
    types.FromStruct ipv6AttrTypes (types.TfsdkStruct.fields x)
      = .ok (types.TfsdkStruct.fields x) := by
  rfl

theorem fromSlice_of_fromStruct {α : Type} [types.TfsdkStruct α]
    (attrTypes : List (String × attr.AttrType))
    (h : ∀ x : α, types.FromStruct attrTypes (types.TfsdkStruct.fields x)
      = .ok (types.TfsdkStruct.fields x)) (l : List α) :
    types.FromSlice attrTypes l = .ok (l.map types.TfsdkStruct.fields) := by
  induction l with
  | nil => rfl
  | cons x xs ih => simp [types.FromSlice, h x, ih]

theorem listValueFrom_of_fromStruct {α : Type} [types.TfsdkStruct α]
    (attrTypes : List (String × attr.AttrType))
    (h : ∀ x : α, types.FromStruct attrTypes (types.TfsdkStruct.fields x)
      = .ok (types.TfsdkStruct.fields x)) (l : List α) :
    (types.ListValueFrom attrTypes l).2 = none
    ∧ (types.ListValueFrom attrTypes l).1.Elements = l.map types.TfsdkStruct.fields
    ∧ (types.ListValueFrom attrTypes l).1
        = (if l.isEmpty then basetypes.Value.null
          else basetypes.Value.known (l.map types.TfsdkStruct.fields)) := by
  cases l with
  | nil => simp [types.ListValueFrom, basetypes.ListValue.Elements]
  | cons x xs =>
    simp [types.ListValueFrom, fromSlice_of_fromStruct attrTypes h (x :: xs),
      basetypes.ListValue.Elements]

end service

namespace service

/-- C4: for a device that is a key of the records map, with r the record found
under it, the conversion returns a model and no error, and the model has
Device, Media, MediaRaw, MacAddr and Status equal to the known strings
r.Device, r.Media, r.MediaRaw, r.MacAddr and r.Status, and IsPhysical equal to
the known boolean r.IsPhysical. -/
theorem convert_scalar_fields {S : Type} (toSet : List String → S)
    (records : GoMap diagnostics.InterfaceConfig) (device : String) (hkey : device ∈ records.keys) :
    ∃ r : diagnostics.InterfaceConfig, List.lookup device records = some r
      ∧ ∃ m : InterfaceDataSourceModel S,
        convertInterfaceConfigStructToSchema toSet records device = (some m, none)
        ∧ m.Device = .known r.Device
        ∧ m.Media = .known r.Media
        ∧ m.MediaRaw = .known r.MediaRaw
        ∧ m.MacAddr = .known r.MacAddr
        ∧ m.Status = .known r.Status
        ∧ m.IsPhysical = .known r.IsPhysical := by
  obtain ⟨r, hr⟩ := GoMap.lookup_isSome_of_key records device hkey
  rw [convert_of_lookup_some toSet records device r hr]
  exact ⟨r, hr, _, rfl, rfl, rfl, rfl, rfl, rfl, rfl⟩

theorem convert_scalar_fields_witness :
    "lan" ∈ GoMap.keys exampleAliased
    ∧ ∃ r : diagnostics.InterfaceConfig, List.lookup "lan" exampleAliased = some r
      ∧ ∃ m : InterfaceDataSourceModel (List String),
        convertInterfaceConfigStructToSchema exampleSliceToSet exampleAliased "lan" = (some m, none)
        ∧ m.Device = .known r.Device
        ∧ m.Media = .known r.Media
        ∧ m.MediaRaw = .known r.MediaRaw
        ∧ m.MacAddr = .known r.MacAddr
        ∧ m.Status = .known r.Status
        ∧ m.IsPhysical = .known r.IsPhysical :=
  ⟨by decide, convert_scalar_fields exampleSliceToSet exampleAliased "lan" (by decide)⟩

/-- C5: for a device that is a key of the records map, with r the record found
under it, the sequence of Ipv4Model records the conversion builds has the
length of r.Ipv4 and its i-th element holds the known IpAddr, SubnetBits and
Tunnel of the i-th element of r.Ipv4; the sequence of Ipv6Model records has the
length of r.Ipv6 and its i-th element holds the known IpAddr, SubnetBits,
Tunnel, Autoconf, Deprecated, LinkLocal and Tentative of the i-th element of
r.Ipv6; and the elements of the model's Ipv4 and Ipv6 lists are the objects of
these records, attribute by attribute, in the same order. -/
theorem convert_address_lists {S : Type} (toSet : List String → S)
    (records : GoMap diagnostics.InterfaceConfig) (device : String) (hkey : device ∈ records.keys) :
    ∃ r : diagnostics.InterfaceConfig, List.lookup device records = some r
      ∧ ∃ m : InterfaceDataSourceModel S,
        convertInterfaceConfigStructToSchema toSet records device = (some m, none)
        ∧ (ipv4s r).length = r.Ipv4.length
        ∧ (∀ (i : Nat) (e : diagnostics.InterfaceConfigIpv4), r.Ipv4[i]? = some e →
            (ipv4s r)[i]? = some
              { Ipaddr := .known e.IpAddr, SubnetBits := .known e.SubnetBits,
                Tunnel := .known e.Tunnel })
        ∧ (ipv6s r).length = r.Ipv6.length
        ∧ (∀ (i : Nat) (e : diagnostics.InterfaceConfigIpv6), r.Ipv6[i]? = some e →
            (ipv6s r)[i]? = some
              { Ipaddr := .known e.IpAddr, SubnetBits := .known e.SubnetBits,
                Tunnel := .known e.Tunnel, Autoconf := .known e.Autoconf,
                Deprecated := .known e.Deprecated, LinkLocal := .known e.LinkLocal,
                Tentative := .known e.Tentative })
        ∧ m.Ipv4.Elements.length = r.Ipv4.length
        ∧ (∀ (i : Nat) (e : diagnostics.InterfaceConfigIpv4), r.Ipv4[i]? = some e →
            m.Ipv4.Elements[i]? = some
              [ ("ipaddr", .String (.known e.IpAddr)),
                ("subnetbits", .Int64 (.known e.SubnetBits)),
                ("tunnel", .Bool (.known e.Tunnel)) ])
        ∧ m.Ipv6.Elements.length = r.Ipv6.length
        ∧ (∀ (i : Nat) (e : diagnostics.InterfaceConfigIpv6), r.Ipv6[i]? = some e →
            m.Ipv6.Elements[i]? = some
              [ ("ipaddr", .String (.known e.IpAddr)),
                ("subnetbits", .Int64 (.known e.SubnetBits)),
                ("tunnel", .Bool (.known e.Tunnel)),
                ("autoconf", .Bool (.known e.Autoconf)),
                ("deprecated", .Bool (.known e.Deprecated)),
                ("link_local", .Bool (.known e.LinkLocal)),
                ("tentative", .Bool (.known e.Tentative)) ]) := by
  obtain ⟨r, hr⟩ := GoMap.lookup_isSome_of_key records device hkey
  rw [convert_of_lookup_some toSet records device r hr]
  have h4 := (listValueFrom_of_fromStruct ipv4AttrTypes fromStruct_ipv4 (ipv4s r)).2.1
  have h6 := (listValueFrom_of_fromStruct ipv6AttrTypes fromStruct_ipv6 (ipv6s r)).2.1
  refine ⟨r, hr, _, rfl, ?_, ?_, ?_, ?_, ?_, ?_, ?_, ?_⟩
  · simp [ipv4s_eq_map]
  · intro i e he
    simp [ipv4s_eq_map, List.getElem?_map, he]
  · simp [ipv6s_eq_map]
  · intro i e he
    simp [ipv6s_eq_map, List.getElem?_map, he]
  · simp only [h4]
    simp [ipv4s_eq_map]
  · intro i e he
    simp only [h4]
    simp [ipv4s_eq_map, List.getElem?_map, he, types.TfsdkStruct.fields]
  · simp only [h6]
    simp [ipv6s_eq_map]
  · intro i e he
    simp only [h6]
    simp [ipv6s_eq_map, List.getElem?_map, he, types.TfsdkStruct.fields]

theorem convert_address_lists_witness :
    "lan" ∈ GoMap.keys exampleAliased
    ∧ ∃ r : diagnostics.InterfaceConfig, List.lookup "lan" exampleAliased = some r
      ∧ ∃ m : InterfaceDataSourceModel (List String),
        convertInterfaceConfigStructToSchema exampleSliceToSet exampleAliased "lan" = (some m, none)
        ∧ (ipv4s r).length = r.Ipv4.length
        ∧ (∀ (i : Nat) (e : diagnostics.InterfaceConfigIpv4), r.Ipv4[i]? = some e →
            (ipv4s r)[i]? = some
              { Ipaddr := .known e.IpAddr, SubnetBits := .known e.SubnetBits,
                Tunnel := .known e.Tunnel })
        ∧ (ipv6s r).length = r.Ipv6.length
        ∧ (∀ (i : Nat) (e : diagnostics.InterfaceConfigIpv6), r.Ipv6[i]? = some e →
            (ipv6s r)[i]? = some
              { Ipaddr := .known e.IpAddr, SubnetBits := .known e.SubnetBits,
                Tunnel := .known e.Tunnel, Autoconf := .known e.Autoconf,
                Deprecated := .known e.Deprecated, LinkLocal := .known e.LinkLocal,
                Tentative := .known e.Tentative })
        ∧ m.Ipv4.Elements.length = r.Ipv4.length
        ∧ (∀ (i : Nat) (e : diagnostics.InterfaceConfigIpv4), r.Ipv4[i]? = some e →
            m.Ipv4.Elements[i]? = some
              [ ("ipaddr", .String (.known e.IpAddr)),
                ("subnetbits", .Int64 (.known e.SubnetBits)),
                ("tunnel", .Bool (.known e.Tunnel)) ])
        ∧ m.Ipv6.Elements.length = r.Ipv6.length
        ∧ (∀ (i : Nat) (e : diagnostics.InterfaceConfigIpv6), r.Ipv6[i]? = some e →
            m.Ipv6.Elements[i]? = some
              [ ("ipaddr", .String (.known e.IpAddr)),
                ("subnetbits", .Int64 (.known e.SubnetBits)),
                ("tunnel", .Bool (.known e.Tunnel)),
                ("autoconf", .Bool (.known e.Autoconf)),
                ("deprecated", .Bool (.known e.Deprecated)),
                ("link_local", .Bool (.known e.LinkLocal)),
                ("tentative", .Bool (.known e.Tentative)) ]) :=
  ⟨by decide, convert_address_lists exampleSliceToSet exampleAliased "lan" (by decide)⟩

/-- C9: the Device of the returned model is the Device field of the record
found, not the lookup key: whenever the record found under a key carries a
Device other than that key, the conversion succeeds with a model whose Device
is the record's and is not the requested device string. -/
theorem convert_device_from_record {S : Type} (toSet : List String → S)
    (records : GoMap diagnostics.InterfaceConfig) (device : String) (r : diagnostics.InterfaceConfig)
    (hr : List.lookup device records = some r) (hne : r.Device ≠ device) :
    device ∈ records.keys
    ∧ ∃ m : InterfaceDataSourceModel S,
      convertInterfaceConfigStructToSchema toSet records device = (some m, none)
      ∧ m.Device = .known r.Device
      ∧ m.Device ≠ .known device := by
  rw [convert_of_lookup_some toSet records device r hr]
  refine ⟨GoMap.key_of_lookup_eq_some records device r hr, _, rfl, rfl, ?_⟩
  simp [types.StringValue, hne]

theorem convert_device_from_record_witness :
    List.lookup "lan" exampleAliased = some exampleLagg0
    ∧ exampleLagg0.Device ≠ "lan"
    ∧ "lan" ∈ GoMap.keys exampleAliased
    ∧ ∃ m : InterfaceDataSourceModel (List String),
      convertInterfaceConfigStructToSchema exampleSliceToSet exampleAliased "lan" = (some m, none)
      ∧ m.Device = .known exampleLagg0.Device
      ∧ m.Device ≠ .known "lan" :=
  ⟨by decide, by decide,
    convert_device_from_record exampleSliceToSet exampleAliased "lan" exampleLagg0 (by decide) (by decide)⟩

end service

namespace service

/-- C8: the schema has exactly the fourteen top-level attributes device, media,
media_raw, macaddr, is_physical, mtu, status, flags, capabilities, options,
supported_media, groups, ipv4 and ipv6, each declared once; device is Required
and not Computed, and every other attribute is Computed and not Required. -/
theorem schema_top_level_attributes :
    InterfaceDataSourceSchema.Attributes.map Prod.fst
      = ["device", "media", "media_raw", "macaddr", "is_physical", "mtu", "status",
         "flags", "capabilities", "options", "supported_media", "groups", "ipv4", "ipv6"]
    ∧ (InterfaceDataSourceSchema.Attributes.map Prod.fst).Nodup
    ∧ (InterfaceDataSourceSchema.Attributes.map Prod.fst).length = 14
    ∧ (∀ p ∈ InterfaceDataSourceSchema.Attributes,
        (p.1 = "device" → p.2.IsRequired = true ∧ p.2.IsComputed = false)
        ∧ (p.1 ≠ "device" → p.2.IsComputed = true ∧ p.2.IsRequired = false)) := by
  refine ⟨rfl, by decide, rfl, ?_⟩
  intro p hp
  simp only [InterfaceDataSourceSchema, List.mem_cons, List.mem_singleton, List.not_mem_nil,
    or_false] at hp
  rcases hp with h | h | h | h | h | h | h | h | h | h | h | h | h | h <;> subst h <;> decide

/-- C10: the three descriptions of an address record agree. The keys of
ipv4AttrTypes are the attribute names of the schema's ipv4 nested object and
the tfsdk tags of Ipv4Model, and under each name the attribute type is the one
the schema attribute declares and the one of the model field; the same holds of
ipv6AttrTypes, the schema's ipv6 nested object and Ipv6Model. Hence every
Ipv4Model and every Ipv6Model converts to an object of the declared type, and
for every device that is a key of the records map the conversion function
returns a model whose Ipv4 and Ipv6 lists are not unknown: each is the result
of its list conversion, whose dropped diagnostics are empty, and is the null
list for no address and otherwise the known list of the objects of the records
built. -/
theorem address_descriptions_agree {S : Type} (toSet : List String → S) :
    (ipv4AttrTypes.keys.Nodup
      ∧ (InterfaceDataSourceSchema.nestedObject "ipv4").map Prod.fst = ipv4AttrTypes.keys
      ∧ (∀ x : Ipv4Model, (types.TfsdkStruct.fields x).map Prod.fst = ipv4AttrTypes.keys)
      ∧ (InterfaceDataSourceSchema.nestedObject "ipv4").map (fun p => (p.1, p.2.primitiveType))
          = ipv4AttrTypes.map (fun p => (p.1, some p.2))
      ∧ (∀ x : Ipv4Model,
          (types.TfsdkStruct.fields x).map (fun p => (p.1, p.2.TypeOf)) = ipv4AttrTypes))
    ∧ (ipv6AttrTypes.keys.Nodup
      ∧ (InterfaceDataSourceSchema.nestedObject "ipv6").map Prod.fst = ipv6AttrTypes.keys
      ∧ (∀ x : Ipv6Model, (types.TfsdkStruct.fields x).map Prod.fst = ipv6AttrTypes.keys)
      ∧ (InterfaceDataSourceSchema.nestedObject "ipv6").map (fun p => (p.1, p.2.primitiveType))
          = ipv6AttrTypes.map (fun p => (p.1, some p.2))
      ∧ (∀ x : Ipv6Model,
          (types.TfsdkStruct.fields x).map (fun p => (p.1, p.2.TypeOf)) = ipv6AttrTypes))
    ∧ (∀ x : Ipv4Model, ∃ o : basetypes.ObjectValue,
        types.FromStruct ipv4AttrTypes (types.TfsdkStruct.fields x) = .ok o)
    ∧ (∀ x : Ipv6Model, ∃ o : basetypes.ObjectValue,
        types.FromStruct ipv6AttrTypes (types.TfsdkStruct.fields x) = .ok o)
    ∧ (∀ (records : GoMap diagnostics.InterfaceConfig) (device : String),
        device ∈ records.keys →
        ∃ r : diagnostics.InterfaceConfig, List.lookup device records = some r
          ∧ ∃ m : InterfaceDataSourceModel S,
            convertInterfaceConfigStructToSchema toSet records device = (some m, none)
            ∧ m.Ipv4 ≠ .unknown
            ∧ m.Ipv6 ≠ .unknown
            ∧ types.ListValueFrom ipv4AttrTypes (ipv4s r) = (m.Ipv4, none)
            ∧ types.ListValueFrom ipv6AttrTypes (ipv6s r) = (m.Ipv6, none)
            ∧ m.Ipv4 = (if (ipv4s r).isEmpty then basetypes.Value.null
                else basetypes.Value.known ((ipv4s r).map types.TfsdkStruct.fields))
            ∧ m.Ipv6 = (if (ipv6s r).isEmpty then basetypes.Value.null
                else basetypes.Value.known ((ipv6s r).map types.TfsdkStruct.fields))) := by
  refine ⟨⟨by decide, by decide, fun _ => rfl, by decide, fun _ => rfl⟩,
    ⟨by decide, by decide, fun _ => rfl, by decide, fun _ => rfl⟩,
    fun x => ⟨_, fromStruct_ipv4 x⟩, fun x => ⟨_, fromStruct_ipv6 x⟩, ?_⟩
  intro records device hkey
  obtain ⟨r, hr⟩ := GoMap.lookup_isSome_of_key records device hkey
  have h4 := listValueFrom_of_fromStruct ipv4AttrTypes fromStruct_ipv4 (ipv4s r)
  have h6 := listValueFrom_of_fromStruct ipv6AttrTypes fromStruct_ipv6 (ipv6s r)
  rw [convert_of_lookup_some toSet records device r hr]
  refine ⟨r, hr, _, rfl, ?_, ?_, ?_, ?_, h4.2.2, h6.2.2⟩
  · show (types.ListValueFrom ipv4AttrTypes (ipv4s r)).1 ≠ .unknown
    rw [h4.2.2]
    split <;> simp
  · show (types.ListValueFrom ipv6AttrTypes (ipv6s r)).1 ≠ .unknown
    rw [h6.2.2]
    split <;> simp
  · exact Prod.ext rfl h4.1
  · exact Prod.ext rfl h6.1

theorem address_descriptions_agree_witness :
    "lan" ∈ GoMap.keys exampleAliased
    ∧ ∃ r : diagnostics.InterfaceConfig, List.lookup "lan" exampleAliased = some r
          ∧ ∃ m : InterfaceDataSourceModel (List String),
            convertInterfaceConfigStructToSchema exampleSliceToSet exampleAliased "lan" = (some m, none)
            ∧ m.Ipv4 ≠ .unknown
            ∧ m.Ipv6 ≠ .unknown
            ∧ types.ListValueFrom ipv4AttrTypes (ipv4s r) = (m.Ipv4, none)
            ∧ types.ListValueFrom ipv6AttrTypes (ipv6s r) = (m.Ipv6, none)
            ∧ m.Ipv4 = (if (ipv4s r).isEmpty then basetypes.Value.null
                else basetypes.Value.known ((ipv4s r).map types.TfsdkStruct.fields))
            ∧ m.Ipv6 = (if (ipv6s r).isEmpty then basetypes.Value.null
                else basetypes.Value.known ((ipv6s r).map types.TfsdkStruct.fields)) :=
  ⟨by decide,
    (address_descriptions_agree exampleSliceToSet).2.2.2.2 exampleAliased "lan" (by decide)⟩

end service

/-! ## The MTU helper of `internal/tools` -/

namespace tools

theorem parseDigits_of_digits (cs : List Char) (acc : Nat)
    (h : ∀ c ∈ cs, c.isDigit = true) :
    parseDigits cs acc
      = some (acc * 10 ^ cs.length
          + Nat.ofDigits 10 (cs.reverse.map (fun c => c.toNat - '0'.toNat))) := by
  induction cs generalizing acc with
  | nil => simp [parseDigits]
  | cons c cs ih =>
    have hc : c.isDigit = true := h c (List.mem_cons_self c cs)
    have hcs : ∀ c ∈ cs, c.isDigit = true := fun x hx => h x (List.mem_cons_of_mem c hx)
    simp only [parseDigits, digitValue, hc, if_true, ih _ hcs, List.reverse_cons, List.map_append,
      List.map_cons, List.map_nil, Nat.ofDigits_append, Nat.ofDigits_singleton, List.length_map,
      List.length_reverse, List.length_cons, Option.some.injEq]
    ring

theorem stringToInt64Null_empty : StringToInt64Null "" = .null := by
  rfl

theorem stringToInt64Null_of_digits (s : String) (hne : s.data ≠ [])
    (hd : ∀ c ∈ s.data, c.isDigit = true)
    (hr : Nat.ofDigits 10 (s.data.reverse.map (fun c => c.toNat - '0'.toNat))
      ≤ 9223372036854775807) :
    StringToInt64Null s
      = .known (Nat.ofDigits 10 (s.data.reverse.map (fun c => c.toNat - '0'.toNat)) : Nat) := by
  obtain ⟨data⟩ := s
  cases data with
  | nil => exact absurd rfl hne
  | cons c cs =>
    have hc : c.isDigit = true := hd c (List.mem_cons_self c cs)
    have h1 : c ≠ '-' := by
      rintro rfl
      exact absurd hc (by decide)
    have h2 : c ≠ '+' := by
      rintro rfl
      exact absurd hc (by decide)
    have hs : (String.mk (c :: cs)) ≠ "" := by
      intro h
      have := congrArg String.data h
      simp at this
    have hu : parseUint (c :: cs)
        = some (Nat.ofDigits 10 ((c :: cs).reverse.map (fun c => c.toNat - '0'.toNat))) := by
      simp only [parseUint, List.isEmpty_cons, Bool.false_eq_true, if_false]
      rw [parseDigits_of_digits (c :: cs) 0 hd]
      simp
    change Nat.ofDigits 10 ((c :: cs).reverse.map (fun c => c.toNat - '0'.toNat))
      ≤ 9223372036854775807 at hr
    change StringToInt64Null (String.mk (c :: cs))
      = .known (Nat.ofDigits 10 ((c :: cs).reverse.map (fun c => c.toNat - '0'.toNat)) : Nat)
    generalize Nat.ofDigits 10 ((c :: cs).reverse.map (fun c => c.toNat - '0'.toNat)) = v
      at hu hr ⊢
    have hp : parseInt64 (String.mk (c :: cs)) = some (v : Int) := by
      unfold parseInt64
      simp only
      split
      · rename_i heq
        simp at heq
        exact absurd heq.1 h1
      · rename_i heq
        simp at heq
        exact absurd heq.1 h2
      · rw [hu]
        have hlt : (v : Int) ≤ 9223372036854775807 := by exact_mod_cast hr
        have hge : (-9223372036854775808 : Int) ≤ (v : Int) := by omega
        simp only [Option.map_some', Option.some_bind, Int.ofNat_eq_coe]
        rw [if_pos ⟨hge, hlt⟩]
    unfold StringToInt64Null
    rw [if_neg hs, hp]
    rfl

end tools

namespace service

/-- C6: for a device that is a key of the records map, with r the record found
under it, the returned model has a null Mtu, not the integer 0, when r.Mtu is
the empty string; it has the known Mtu 1500 when r.Mtu is "1500"; and in
general, when r.Mtu is a non-empty string of decimal digits whose value fits
an int64, the Mtu is known and is that value. -/
theorem convert_mtu {S : Type} (toSet : List String → S)
    (records : GoMap diagnostics.InterfaceConfig) (device : String) (hkey : device ∈ records.keys) :
    ∃ r : diagnostics.InterfaceConfig, List.lookup device records = some r
      ∧ ∃ m : InterfaceDataSourceModel S,
        convertInterfaceConfigStructToSchema toSet records device = (some m, none)
        ∧ (r.Mtu = "" → m.Mtu = .null ∧ m.Mtu ≠ .known 0)
        ∧ (r.Mtu = "1500" → m.Mtu = .known 1500)
        ∧ (r.Mtu.data ≠ [] → (∀ c ∈ r.Mtu.data, c.isDigit = true) →
            Nat.ofDigits 10 (r.Mtu.data.reverse.map (fun c => c.toNat - '0'.toNat))
              ≤ 9223372036854775807 →
            m.Mtu = .known
              (Nat.ofDigits 10 (r.Mtu.data.reverse.map (fun c => c.toNat - '0'.toNat)) : Nat)) := by
  obtain ⟨r, hr⟩ := GoMap.lookup_isSome_of_key records device hkey
  rw [convert_of_lookup_some toSet records device r hr]
  refine ⟨r, hr, _, rfl, ?_, ?_, ?_⟩
  · intro h
    show tools.StringToInt64Null r.Mtu = .null ∧ tools.StringToInt64Null r.Mtu ≠ .known 0
    rw [h, tools.stringToInt64Null_empty]
    exact ⟨rfl, fun hz => by cases hz⟩
  · intro h
    show tools.StringToInt64Null r.Mtu = .known 1500
    rw [h]
    decide
  · intro hne hd hv
    exact tools.stringToInt64Null_of_digits r.Mtu hne hd hv

theorem convert_mtu_witness :
    ("lan" ∈ GoMap.keys exampleAliased
      ∧ ∃ r : diagnostics.InterfaceConfig, List.lookup "lan" exampleAliased = some r
        ∧ ∃ m : InterfaceDataSourceModel (List String),
          convertInterfaceConfigStructToSchema exampleSliceToSet exampleAliased "lan" = (some m, none)
          ∧ (r.Mtu = "" → m.Mtu = .null ∧ m.Mtu ≠ .known 0)
          ∧ (r.Mtu = "1500" → m.Mtu = .known 1500)
          ∧ (r.Mtu.data ≠ [] → (∀ c ∈ r.Mtu.data, c.isDigit = true) →
              Nat.ofDigits 10 (r.Mtu.data.reverse.map (fun c => c.toNat - '0'.toNat))
                ≤ 9223372036854775807 →
              m.Mtu = .known
                (Nat.ofDigits 10 (r.Mtu.data.reverse.map (fun c => c.toNat - '0'.toNat)) : Nat)))
    ∧ ("em0" ∈ GoMap.keys exampleAliased
      ∧ ∃ r : diagnostics.InterfaceConfig, List.lookup "em0" exampleAliased = some r
        ∧ ∃ m : InterfaceDataSourceModel (List String),
          convertInterfaceConfigStructToSchema exampleSliceToSet exampleAliased "em0" = (some m, none)
          ∧ (r.Mtu = "" → m.Mtu = .null ∧ m.Mtu ≠ .known 0)
          ∧ (r.Mtu = "1500" → m.Mtu = .known 1500)
          ∧ (r.Mtu.data ≠ [] → (∀ c ∈ r.Mtu.data, c.isDigit = true) →
              Nat.ofDigits 10 (r.Mtu.data.reverse.map (fun c => c.toNat - '0'.toNat))
                ≤ 9223372036854775807 →
              m.Mtu = .known
                (Nat.ofDigits 10 (r.Mtu.data.reverse.map (fun c => c.toNat - '0'.toNat)) : Nat))) :=
  ⟨⟨by decide, convert_mtu exampleSliceToSet exampleAliased "lan" (by decide)⟩,
    ⟨by decide, convert_mtu exampleSliceToSet exampleAliased "em0" (by decide)⟩⟩

end service
